import Mathlib

/-!
Verification model of `parse_and_build.py` from the Axial_BOTPT repository.

The script is a single-pass batch pipeline: it reads delimited pressure-log
files, infers the time and value columns, parses timestamps (UTC) and numeric
values, converts psi to kPa, merges rows per station, averages duplicate
timestamps, optionally resamples onto a fixed grid, and emits one JSON payload.

Modelling conventions:
* Timestamps are seconds since the Unix epoch (`Int`); `pd.to_datetime(...,
  utc=True)` is modelled for the ISO-8601 layouts `YYYY-MM-DD[T ]HH:MM:SS`
  with optional trailing `Z` that the input files use (a naive stamp is taken
  as UTC, exactly as `utc=True` localises naive input to UTC).
* Numeric values are exact rationals (`ℚ`); float64 rounding error is out of
  scope, and `round(4)` is modelled as round-half-to-even at four decimals.
* `pd.read_csv(..., comment="#")` is modelled for comma-delimited input (the
  delimiter the sniffer finds for these files): full comment lines and blank
  lines are dropped, the first remaining line is the header (pandas default
  `header=0`), the rest are data rows.
* `sort_values` / `groupby` / `resample(...).mean().dropna()` are modelled by
  sorting the keys, deduplicating them, and mapping each key to the mean of
  the values grouped under it; empty buckets never arise, matching the
  `.dropna()` after the bucket means.
* I/O (directory traversal, JSON writing, wall-clock `updated_at`) is outside
  the model; a run is a function from the per-file read outcomes to the
  payload.  A file whose read raises is an `Except.error` carrying the
  exception text.
-/

namespace Axial

/-- Python `str.lower` restricted to ASCII, which is all the header synonyms
use. -/
def lowerChar (c : Char) : Char :=
  if 'A' ≤ c ∧ c ≤ 'Z' then Char.ofNat (c.toNat + 32) else c

/-- Characters stripped by Python `str.strip()`. -/
def isSpaceChar (c : Char) : Bool :=
  c = ' ' || c = '\t' || c = '\n' || c = '\r'

/-- Python `str.lower` on a whole string. -/
def lowerStr (s : String) : String :=
  ⟨s.data.map lowerChar⟩

/-- Python `str.strip()`. -/
def stripStr (s : String) : String :=
  ⟨((s.data.dropWhile isSpaceChar).reverse.dropWhile isSpaceChar).reverse⟩

/-- Split a character list at every occurrence of the separator. -/
def splitCharAux (sep : Char) : List Char → List Char → List (List Char)
  | [], acc => [acc.reverse]
  | c :: cs, acc =>
    if c = sep then acc.reverse :: splitCharAux sep cs []
    else splitCharAux sep cs (c :: acc)

/-- Split a string on a separator character (model of the comma-delimited
field split `read_csv` performs on these files). -/
def splitChar (sep : Char) (s : String) : List String :=
  (splitCharAux sep s.data []).map (fun l => ⟨l⟩)

def isDigitChar (c : Char) : Bool :=
  '0' ≤ c && c ≤ '9'

def digitVal (c : Char) : Nat :=
  match c with
  | '0' => 0 | '1' => 1 | '2' => 2 | '3' => 3 | '4' => 4
  | '5' => 5 | '6' => 6 | '7' => 7 | '8' => 8 | '9' => 9
  | _ => 0

/-- Parse a non-empty all-digit character list as a natural number. -/
def parseNatList (l : List Char) : Option Nat :=
  if l.isEmpty then none
  else if l.all isDigitChar then
    some (l.foldl (fun a c => 10 * a + digitVal c) 0)
  else none

/-- Model of `pd.to_numeric(..., errors="coerce")` together with
`na_values=["", "NA", "NaN"]`: plain decimal literals with optional sign and
fraction parse to a rational, everything else (including the NA markers)
becomes missing. -/
def parseDecimal (s : String) : Option ℚ :=
  let t := stripStr s
  if t = "" ∨ t = "NA" ∨ t = "NaN" then none
  else
    let (sign, body) : ℚ × List Char :=
      match t.data with
      | '-' :: rest => (-1, rest)
      | '+' :: rest => (1, rest)
      | l => (1, l)
    match splitCharAux '.' body [] with
    | [ip] =>
      (parseNatList ip).map (fun n => sign * (n : ℚ))
    | [ip, fp] =>
      if ip.isEmpty ∧ fp.isEmpty then none
      else
        let ipn := if ip.isEmpty then some 0 else parseNatList ip
        let fpn := if fp.isEmpty then some 0 else parseNatList fp
        match ipn, fpn with
        | some a, some b => some (sign * ((a : ℚ) + (b : ℚ) / ((10 : ℚ) ^ fp.length)))
        | _, _ => none
    | _ => none

/-- Days since 1970-01-01 of a proleptic-Gregorian civil date
(floor-division form of the standard civil-calendar algorithm). -/
def daysFromCivil (y m d : Int) : Int :=
  let y' := if m ≤ 2 then y - 1 else y
  let era := Int.fdiv y' 400
  let yoe := y' - era * 400
  let mp := Int.emod (m + 9) 12
  let doy := Int.fdiv (153 * mp + 2) 5 + d - 1
  let doe := yoe * 365 + Int.fdiv yoe 4 - Int.fdiv yoe 100 + doy
  era * 146097 + doe - 719468

/-- Inverse of `daysFromCivil`: civil date (year, month, day) of a day count
since 1970-01-01. -/
def civilFromDays (z0 : Int) : Int × Int × Int :=
  let z := z0 + 719468
  let era := Int.fdiv z 146097
  let doe := z - era * 146097
  let yoe := Int.fdiv (doe - Int.fdiv doe 1460 + Int.fdiv doe 36524 - Int.fdiv doe 146096) 365
  let y := yoe + era * 400
  let doy := doe - (365 * yoe + Int.fdiv yoe 4 - Int.fdiv yoe 100)
  let mp := Int.fdiv (5 * doy + 2) 153
  let d := doy - Int.fdiv (153 * mp + 2) 5 + 1
  let m := mp + (if mp < 10 then 3 else -9)
  (y + (if m ≤ 2 then 1 else 0), m, d)

/-- Epoch seconds of one `YYYY-MM-DD HH:MM:SS` field group, with range
checks. -/
def timeFieldsToEpoch (y1 y2 y3 y4 mo1 mo2 d1 d2 h1 h2 mi1 mi2 s1 s2 : Char) : Option Int :=
  if [y1, y2, y3, y4, mo1, mo2, d1, d2, h1, h2, mi1, mi2, s1, s2].all isDigitChar then
    let y : Nat := 1000 * digitVal y1 + 100 * digitVal y2 + 10 * digitVal y3 + digitVal y4
    let mo : Nat := 10 * digitVal mo1 + digitVal mo2
    let d : Nat := 10 * digitVal d1 + digitVal d2
    let h : Nat := 10 * digitVal h1 + digitVal h2
    let mi : Nat := 10 * digitVal mi1 + digitVal mi2
    let sec : Nat := 10 * digitVal s1 + digitVal s2
    if 1 ≤ mo ∧ mo ≤ 12 ∧ 1 ≤ d ∧ d ≤ 31 ∧ h ≤ 23 ∧ mi ≤ 59 ∧ sec ≤ 59 then
      some (86400 * daysFromCivil (y : Int) (mo : Int) (d : Int) +
        (3600 * h + 60 * mi + sec : Nat))
    else none
  else none

/-- Recognised timestamp layouts: `YYYY-MM-DD[T ]HH:MM:SS` with an optional
trailing `Z`. -/
def parseTimeList : List Char → Option Int
  | [y1, y2, y3, y4, '-', mo1, mo2, '-', d1, d2, sep, h1, h2, ':', mi1, mi2, ':', s1, s2] =>
    if sep = 'T' ∨ sep = ' ' then
      timeFieldsToEpoch y1 y2 y3 y4 mo1 mo2 d1 d2 h1 h2 mi1 mi2 s1 s2
    else none
  | [y1, y2, y3, y4, '-', mo1, mo2, '-', d1, d2, sep, h1, h2, ':', mi1, mi2, ':', s1, s2, 'Z'] =>
    if sep = 'T' ∨ sep = ' ' then
      timeFieldsToEpoch y1 y2 y3 y4 mo1 mo2 d1 d2 h1 h2 mi1 mi2 s1 s2
    else none
  | _ => none

/-- Model of `pd.to_datetime(col, errors="coerce", utc=True)` on one cell for
the layouts above: the result is UTC epoch seconds, a naive stamp being
localised as UTC (which is what `utc=True` does), and unparseable cells become
missing (`errors="coerce"`). -/
def parseTime (s : String) : Option Int :=
  parseTimeList (stripStr s).data

/-- Left-pad a non-negative integer with zeros to a given width
(`strftime` field padding). -/
def padZeros (w : Nat) (n : Int) : String :=
  let s := toString n
  ⟨List.replicate (w - s.data.length) '0' ++ s.data⟩

/-- Model of `dt.strftime("%Y-%m-%dT%H:%M:%SZ")` on UTC epoch seconds. -/
def formatTime (t : Int) : String :=
  let days := Int.fdiv t 86400
  let sod := t - 86400 * days
  let c := civilFromDays days
  padZeros 4 c.1 ++ "-" ++ padZeros 2 c.2.1 ++ "-" ++ padZeros 2 c.2.2 ++ "T" ++
    padZeros 2 (Int.fdiv sod 3600) ++ ":" ++ padZeros 2 (Int.emod (Int.fdiv sod 60) 60) ++
    ":" ++ padZeros 2 (Int.emod sod 60) ++ "Z"

/-- Floor of a rational, computed from its normalised numerator and
denominator. -/
def ratFloor (q : ℚ) : Int :=
  Int.fdiv q.num (q.den : Int)

/-- Round to the nearest integer, ties to even — the rounding `numpy` (and
hence pandas `Series.round`) applies. -/
def roundHalfEven (q : ℚ) : Int :=
  let f := ratFloor q
  let r := q - (f : ℚ)
  if r < 1 / 2 then f
  else if 1 / 2 < r then f + 1
  else if Int.emod f 2 = 0 then f else f + 1

/-- Model of pandas `.round(4)` on an exact rational value. -/
def round4 (q : ℚ) : ℚ :=
  (roundHalfEven (q * 10000) : ℚ) / 10000

/-- Arithmetic mean of a list of rationals (pandas `mean()`; never applied to
an empty group by the pipeline). -/
def mean (l : List ℚ) : ℚ :=
  l.sum / (l.length : ℚ)

/-- `PSI_TO_KPA = 6.89475729` from the script. -/
def PSI_TO_KPA : ℚ := (689475729 : ℚ) / 100000000

/-- A parsed delimited file: header labels and data rows
(`pd.read_csv` result, before any typing). -/
structure Table where
  columns : List String
  rows : List (List String)
deriving DecidableEq

/-- Is this line dropped before parsing?  `comment="#"` drops full comment
lines and `skip_blank_lines` (pandas default) drops empty lines. -/
def droppedLine (s : String) : Bool :=
  s = "" || s.data.head? = some '#'

/-- Model of `pd.read_csv(path, sep=None, engine="python", comment="#", ...)`
for comma-delimited input (the delimiter the sniffer detects on these files):
comment and blank lines are dropped, the first remaining line is the header
row (pandas default `header=0` — even when the file has no real header), the
rest are the data rows. -/
def readCsv (lines : List String) : Table :=
  match (lines.filter (fun l => ¬ droppedLine l)).map (splitChar ',') with
  | [] => ⟨[], []⟩
  | c :: rs => ⟨c, rs⟩

/-- `time_keys` from `_find_cols`. -/
def time_keys : List String := ["time", "timestamp", "date", "datetime"]

/-- `val_keys` from `_find_cols`. -/
def val_keys : List String := ["pressure", "prs", "kpa", "psi", "value", "val"]

/-- `lc = [c.lower().strip() for c in df.columns]`. -/
def lowerStrip (cols : List String) : List String :=
  cols.map (fun c => stripStr (lowerStr c))

/-- The `for k in keys: if k in lc: idx = lc.index(k); break` loop of
`_find_cols`: first key of the priority list present in `lc` wins, at its
first occurrence. -/
def findKey (lc : List String) : List String → Option Nat
  | [] => none
  | k :: ks => if lc.contains k then some (lc.indexOf k) else findKey lc ks

/-- `_find_cols` (returning column indices; pandas mangles duplicate header
labels, so label-based and index-based selection agree): header synonyms win,
otherwise column 0 is time and column 1 (or 0, if only one column exists) is
value, forced to 1 on a collision when more than one column exists. -/
def find_cols (cols : List String) : Nat × Nat :=
  let lc := lowerStrip cols
  let t := (findKey lc time_keys).getD 0
  let v :=
    match findKey lc val_keys with
    | some i => i
    | none =>
      let v0 := if 1 < cols.length then 1 else 0
      if v0 = t ∧ 1 < cols.length then 1 else v0
  (t, v)

/-- The run-level configuration constants of the script (`ASSUME_UNITS`,
`LOCAL_TZ`, `RESAMPLE_RULE`). -/
structure Config where
  ASSUME_UNITS : String
  LOCAL_TZ : String
  RESAMPLE_RULE : String
deriving DecidableEq

/-- Sort rows ascending by timestamp (`sort_values("time")`; the sort kind is
irrelevant downstream because all later steps group by exact key). -/
def sortByTime (rows : List (Int × ℚ)) : List (Int × ℚ) :=
  rows.insertionSort (fun a b => a.1 ≤ b.1)

/-- `load_dat`: read the file, bail out with an empty frame if it is empty,
infer the two columns, parse times (UTC) and numeric values, drop rows where
either failed (`dropna`), convert psi to kPa when so configured, and sort by
time.  Note the timestamp parse never consults `cfg.LOCAL_TZ` — the script
passes `utc=True` unconditionally. -/
def load_dat (cfg : Config) (lines : List String) : List (Int × ℚ) :=
  let df := readCsv lines
  if df.rows.isEmpty then []
  else
    let tv := find_cols df.columns
    let out := df.rows.filterMap (fun r =>
      match parseTime (r.getD tv.1 ""), parseDecimal (r.getD tv.2 "") with
      | some t, some v => some (t, v)
      | _, _ => none)
    let out := if lowerStr cfg.ASSUME_UNITS = "psi"
      then out.map (fun p => (p.1, p.2 * PSI_TO_KPA))
      else out
    sortByTime out

/-- Sorted, duplicate-free list of the keys occurring in `rows` under the key
map `key` (the index a pandas `groupby`/`resample` produces). -/
def sortedKeys (key : Int → Int) (rows : List (Int × ℚ)) : List Int :=
  ((rows.map (fun r => key r.1)).insertionSort (fun a b => a ≤ b)).dedup

/-- Group rows by a key derived from the timestamp and take the mean of each
group's values, one output point per key occurring in the data, keys
ascending.  With `key = id` this is
`merged.groupby("time", as_index=False)["pressure_kPa"].mean()`; with the
bucket-floor key it is `resample(rule).mean().dropna()` (empty buckets never
produce a key, matching the `dropna`). -/
def groupMeanBy (key : Int → Int) (rows : List (Int × ℚ)) : List (Int × ℚ) :=
  (sortedKeys key rows).map (fun t =>
    (t, mean ((rows.filter (fun r => key r.1 == t)).map (fun r => r.2))))

/-- Duplicate-timestamp collapse by averaging (`groupby("time").mean()`). -/
def dedupMean (rows : List (Int × ℚ)) : List (Int × ℚ) :=
  groupMeanBy (fun t => t) rows

/-- Smallest timestamp of a frame (0 for the empty frame, on which the
resampler produces no bucket anyway). -/
def minTime (rows : List (Int × ℚ)) : Int :=
  match rows with
  | [] => 0
  | r :: rs => (rs.map (fun q => q.1)).foldl min r.1

/-- Midnight (UTC) of the first day of the frame — the `origin='start_day'`
bin anchor pandas `resample` uses by default. -/
def startDayOrigin (rows : List (Int × ℚ)) : Int :=
  86400 * Int.fdiv (minTime rows) 86400

/-- Start of the width-`w`-seconds bucket containing epoch second `t`, with
buckets anchored at `origin`: pandas bins `[origin + k*w, origin + (k+1)*w)`
carrying their left edge as label (the default `closed='left'`,
`label='left'` for minute rules). -/
def bucketStart (origin : Int) (w : Nat) (t : Int) : Int :=
  origin + Int.fdiv (t - origin) (w : Int) * (w : Int)

/-- `resample(rule).mean().dropna()` with a bucket width of `w` seconds:
bins anchored at midnight of the frame's first day, one point per non-empty
bin. -/
def resampleBuckets (w : Nat) (rows : List (Int × ℚ)) : List (Int × ℚ) :=
  groupMeanBy (bucketStart (startDayOrigin rows) w) rows

/-- Positive width in minutes denoted by a pandas minute-frequency alias
`"Nmin"` (bare `"min"` meaning one minute) — the rule shapes this script
uses.  `none` covers the alias families outside the model and the zero-width
`"0min"`, which pandas' resampler rejects (it raises, like any alias it
cannot use). -/
def parseRuleMinutes (rule : String) : Option Nat :=
  let l := rule.data
  if l.drop (l.length - 3) = ['m', 'i', 'n'] then
    match l.take (l.length - 3) with
    | [] => some 1
    | ds =>
      match parseNatList ds with
      | some 0 => none
      | r => r
  else none

/-- `resample_df`: pass the frame through untouched when the rule is falsy or
the string `"None"` (case-insensitively), otherwise bucket it.  (For a rule
string outside the modelled minute aliases the real script would raise inside
pandas; theorems about applied resampling therefore fix a parseable rule.) -/
def resample_df (rule : String) (df : List (Int × ℚ)) : List (Int × ℚ) :=
  if rule = "" ∨ lowerStr rule = "none" then df
  else
    match parseRuleMinutes rule with
    | some m => resampleBuckets (60 * m) df
    | none => df

/-- One input file as the run sees it: its path, the station name derived
from its directory (`station_name_from_path`), and the outcome of reading it —
the raw lines, or the exception text when reading raises (the case the
`try/except` in `main` catches). -/
structure FileEntry where
  path : String
  station : String
  content : Except String (List String)

/-- The per-file work inside `main`'s `try`: a raised read becomes the error,
otherwise `load_dat` runs. -/
def loadResult (cfg : Config) (f : FileEntry) : Except String (List (Int × ℚ)) :=
  f.content.map (load_dat cfg)

/-- The warning `main` prints when a file's parse raises. -/
def warnMsg (path cause : String) : String :=
  "[WARN] Failed to parse " ++ path ++ ": " ++ cause

/-- The warnings printed over a run, in file order. -/
def warnings (files : List FileEntry) : List String :=
  files.filterMap (fun f =>
    match f.content with
    | .error e => some (warnMsg f.path e)
    | .ok _ => none)

/-- The data-frame list recorded for a station, if any. -/
def lookupDfs (recs : List (String × List (List (Int × ℚ)))) (st : String) :
    List (List (Int × ℚ)) :=
  match recs.find? (fun p => p.1 == st) with
  | some p => p.2
  | none => []

/-- Drop a station's entry. -/
def removeStation (recs : List (String × List (List (Int × ℚ)))) (st : String) :
    List (String × List (List (Int × ℚ))) :=
  recs.filter (fun p => ¬ p.1 == st)

/-- The `records` dict `main` builds: per station (keyed by first encounter,
insertion-ordered, as a Python dict is), the non-empty frames of its files in
file order; files whose read raised, and files yielding an empty frame, are
skipped. -/
def collectRecords (cfg : Config) : List FileEntry → List (String × List (List (Int × ℚ)))
  | [] => []
  | f :: rest =>
    let r := collectRecords cfg rest
    match loadResult cfg f with
    | .error _ => r
    | .ok df =>
      if df.isEmpty then r
      else (f.station, df :: lookupDfs r f.station) :: removeStation r f.station

/-- One element of the output `series` list. -/
structure SeriesEntry where
  station : String
  x : List String
  y : List ℚ
  unit : String
deriving DecidableEq

/-- The station loop body in `main`: concatenate the station's frames, sort
and collapse duplicate timestamps by averaging, resample, then format times
and round values to four decimals.  (The extra `dropna`/`sort_values` before
the `groupby` are absorbed: model rows carry no missing cells, and the
`groupby` model orders its own keys while the group means are order
independent.) -/
def mkSeries (cfg : Config) (st : String) (dfs : List (List (Int × ℚ))) : SeriesEntry :=
  let merged := resample_df cfg.RESAMPLE_RULE (dedupMean dfs.flatten)
  ⟨st, merged.map (fun p => formatTime p.1), merged.map (fun p => round4 p.2), "kPa"⟩

/-- The run metadata of the payload (`updated_at`, being wall-clock time, is
outside the model). -/
structure Meta where
  count_series : Nat
  note : String
deriving DecidableEq

/-- `"Resampled for display" if RESAMPLE_RULE else "Raw cadence"` — Python
truthiness: any non-empty string selects the first branch. -/
def noteOf (rule : String) : String :=
  if rule = "" then "Raw cadence" else "Resampled for display"

/-- The output document. -/
structure Payload where
  meta : Meta
  series : List SeriesEntry
deriving DecidableEq

/-- `main`, as a function from the configuration and the per-file read
outcomes to the written payload. -/
def buildPayload (cfg : Config) (files : List FileEntry) : Payload :=
  let series := (collectRecords cfg files).map (fun p => mkSeries cfg p.1 p.2)
  ⟨⟨series.length, noteOf cfg.RESAMPLE_RULE⟩, series⟩

/-- Modelled from the spec: fixed UTC offsets (minutes east) for input
timezone labels, as the spec's configurable input zone would require; the
script itself never consults the label.  `America/Los_Angeles` is given its
winter (PST) offset, which is exact for the January instants used below. -/
def tzOffsetMinutes (label : String) : Int :=
  if label = "America/Los_Angeles" then -480 else 0

/-- Does the stamp carry an explicit offset designator (the trailing `Z`), in
the layouts the model recognises? -/
def hasExplicitOffset (s : String) : Bool :=
  (stripStr s).data.getLast? = some 'Z'

/-- Modelled from the spec: timestamp parsing that honours the configured
input timezone — a stamp without an explicit offset is interpreted in the
configured zone and normalized to UTC.  This is the behaviour the spec
ascribes to the script; `load_dat` is to be compared against it. -/
def parseTimeInZone (label : String) (s : String) : Option Int :=
  (parseTime s).map (fun t =>
    if hasExplicitOffset s then t else t - 60 * tzOffsetMinutes label)

/-! ### Helper lemmas -/

theorem sortedKeys_sorted (key : Int → Int) (rows : List (Int × ℚ)) :
    (sortedKeys key rows).Sorted (· < ·) := by
  have h1 : ((rows.map (fun r => key r.1)).insertionSort (fun a b => a ≤ b)).Sorted (· ≤ ·) :=
    List.sorted_insertionSort _ _
  have h3 : (sortedKeys key rows).Sorted (· ≤ ·) := h1.sublist (List.dedup_sublist _)
  have h4 : (sortedKeys key rows).Nodup := List.nodup_dedup _
  exact (h3.and h4).imp (fun h => lt_of_le_of_ne h.1 h.2)

theorem groupMeanBy_map_fst (key : Int → Int) (rows : List (Int × ℚ)) :
    (groupMeanBy key rows).map Prod.fst = sortedKeys key rows := by
  simp [groupMeanBy, Function.comp_def]

theorem mem_sortedKeys {key : Int → Int} {rows : List (Int × ℚ)} {t : Int} :
    t ∈ sortedKeys key rows ↔ ∃ r ∈ rows, key r.1 = t := by
  simp [sortedKeys, List.mem_dedup, (List.perm_insertionSort _ _).mem_iff]

theorem sortedKeys_ne_nil {key : Int → Int} {rows : List (Int × ℚ)} (h : rows ≠ []) :
    sortedKeys key rows ≠ [] := by
  obtain ⟨r, hr⟩ := List.exists_mem_of_ne_nil rows h
  intro hnil
  have hm : key r.1 ∈ sortedKeys key rows := mem_sortedKeys.mpr ⟨r, hr, rfl⟩
  rw [hnil] at hm
  exact absurd hm (List.not_mem_nil _)

theorem groupMeanBy_ne_nil {key : Int → Int} {rows : List (Int × ℚ)} (h : rows ≠ []) :
    groupMeanBy key rows ≠ [] := by
  intro hnil
  have := groupMeanBy_map_fst key rows
  rw [hnil] at this
  exact sortedKeys_ne_nil h this.symm

theorem merged_map_fst_sorted (rule : String) (rows : List (Int × ℚ)) :
    ((resample_df rule (dedupMean rows)).map Prod.fst).Sorted (· < ·) := by
  have hd : ((dedupMean rows).map Prod.fst).Sorted (· < ·) := by
    rw [dedupMean, groupMeanBy_map_fst]
    exact sortedKeys_sorted _ _
  unfold resample_df
  split
  · exact hd
  · split
    · rw [resampleBuckets, groupMeanBy_map_fst]
      exact sortedKeys_sorted _ _
    · exact hd

theorem resample_df_ne_nil {rule : String} {rows : List (Int × ℚ)} (h : rows ≠ []) :
    resample_df rule rows ≠ [] := by
  unfold resample_df
  split
  · exact h
  · split
    · exact groupMeanBy_ne_nil h
    · exact h

theorem lookupDfs_mem {recs : List (String × List (List (Int × ℚ)))} {st : String}
    {df : List (Int × ℚ)} (h : df ∈ lookupDfs recs st) : ∃ p ∈ recs, df ∈ p.2 := by
  rw [lookupDfs] at h
  cases hfind : recs.find? (fun p => p.1 == st) with
  | none => rw [hfind] at h; exact absurd h (List.not_mem_nil _)
  | some q => rw [hfind] at h; exact ⟨q, List.mem_of_find?_eq_some hfind, h⟩

theorem collectRecords_dfs_nonempty (cfg : Config) (files : List FileEntry) :
    ∀ p ∈ collectRecords cfg files, p.2 ≠ [] ∧ ∀ df ∈ p.2, df ≠ [] := by
  induction files with
  | nil => intro p hp; exact absurd hp (List.not_mem_nil _)
  | cons f rest ih =>
    intro p hp
    rw [collectRecords] at hp
    cases hload : loadResult cfg f with
    | error e => rw [hload] at hp; exact ih p hp
    | ok df =>
      rw [hload] at hp
      by_cases hdf : df.isEmpty = true
      · simp only [hdf, if_true] at hp
        exact ih p hp
      · simp only [if_neg hdf] at hp
        rcases List.mem_cons.mp hp with hph | hpt
        · subst hph
          refine ⟨by simp, ?_⟩
          intro d hd
          rcases List.mem_cons.mp hd with hdh | hdt
          · subst hdh
            intro hnil
            rw [hnil] at hdf
            exact hdf rfl
          · obtain ⟨q, hq, hdq⟩ := lookupDfs_mem hdt
            exact (ih q hq).2 d hdq
        · exact ih p (List.mem_of_mem_filter hpt)

theorem mkSeries_x_ne_nil (cfg : Config) (st : String) (dfs : List (List (Int × ℚ)))
    (h1 : dfs ≠ []) (h2 : ∀ df ∈ dfs, df ≠ []) : (mkSeries cfg st dfs).x ≠ [] := by
  obtain ⟨df, hdf⟩ := List.exists_mem_of_ne_nil dfs h1
  have hflat : dfs.flatten ≠ [] := by
    intro hnil
    exact h2 df hdf (List.flatten_eq_nil_iff.mp hnil df hdf)
  have hmerged : resample_df cfg.RESAMPLE_RULE (dedupMean dfs.flatten) ≠ [] :=
    resample_df_ne_nil (groupMeanBy_ne_nil hflat)
  intro hx
  exact hmerged (List.map_eq_nil_iff.mp hx)

theorem collectRecords_skip (cfg : Config) (pre post : List FileEntry) (f : FileEntry)
    (h : ∀ df, loadResult cfg f = .ok df → df = []) :
    collectRecords cfg (pre ++ f :: post) = collectRecords cfg (pre ++ post) := by
  induction pre with
  | nil =>
    simp only [List.nil_append]
    rw [collectRecords]
    cases hload : loadResult cfg f with
    | error e => rfl
    | ok df =>
      have hnil := h df hload
      subst hnil
      rfl
  | cons g pre ih =>
    simp only [List.cons_append]
    rw [collectRecords, collectRecords, ih]

theorem findKey_eq_indexOf (lc keys : List String) (k : String)
    (h : keys.find? (fun q => lc.contains q) = some k) :
    findKey lc keys = some (lc.indexOf k) := by
  induction keys with
  | nil => exact absurd h (by simp)
  | cons a as ih =>
    by_cases ha : lc.contains a = true
    · rw [List.find?_cons_of_pos _ ha] at h
      rw [findKey, if_pos ha, Option.some_inj.mp h]
    · rw [List.find?_cons_of_neg _ (by simpa using ha)] at h
      rw [findKey, if_neg ha, ih h]

theorem findKey_eq_none (lc keys : List String) (h : ∀ k ∈ keys, k ∉ lc) :
    findKey lc keys = none := by
  induction keys with
  | nil => rfl
  | cons a as ih =>
    have ha : ¬ lc.contains a = true := by
      intro hc
      exact h a (by simp) (by simpa using hc)
    rw [findKey, if_neg ha, ih (fun k hk => h k (List.mem_cons_of_mem a hk))]

theorem getElem?_indexOf_of_mem {l : List String} {k : String} (h : k ∈ l) :
    l[l.indexOf k]? = some k := by
  rw [List.getElem?_eq_getElem (List.indexOf_lt_length.mpr h)]
  exact congrArg some (List.getElem_indexOf _)

/-! ### Claim theorems -/

/-- C2: in every emitted station series the timestamps are strictly
increasing (hence unique), with or without resampling, and rows sharing a
timestamp are collapsed into one point carrying the arithmetic mean of their
values — for two rows with values `v1`, `v2`, the value `(v1 + v2) / 2`. -/
theorem stationSeries_strictMono_dups_averaged
    (rule : String) (rows : List (Int × ℚ)) (t : Int) (v1 v2 : ℚ) :
    ((resample_df rule (dedupMean rows)).map Prod.fst).Sorted (· < ·) ∧
    ((dedupMean rows).map Prod.fst).Sorted (· < ·) ∧
    (∀ u ∈ rows.map Prod.fst,
      (u, mean ((rows.filter (fun r => r.1 == u)).map (fun r => r.2))) ∈ dedupMean rows) ∧
    dedupMean [(t, v1), (t, v2)] = [(t, (v1 + v2) / 2)] := by
  refine ⟨merged_map_fst_sorted rule rows, ?_, ?_, ?_⟩
  · rw [dedupMean, groupMeanBy_map_fst]
    exact sortedKeys_sorted _ _
  · intro u hu
    rw [List.mem_map] at hu
    obtain ⟨r, hr, hru⟩ := hu
    have hk : u ∈ sortedKeys (fun t => t) rows := mem_sortedKeys.mpr ⟨r, hr, hru⟩
    have := List.mem_map_of_mem
      (fun u => (u, mean ((rows.filter (fun r => (fun t => t) r.1 == u)).map (fun r => r.2)))) hk
    simpa [dedupMean, groupMeanBy] using this
  · simp [dedupMean, groupMeanBy, sortedKeys, mean, List.insertionSort, List.orderedInsert,
      List.dedup_cons_of_mem]

/-- C2 witness: two rows at timestamp 0 with values 1 and 3 collapse to the
single point carrying their mean. -/
theorem stationSeries_strictMono_dups_averaged_witness :
    (0, mean ((([((0 : Int), (1 : ℚ)), (0, 3)]).filter
        (fun r => r.1 == 0)).map (fun r => r.2))) ∈
      dedupMean [((0 : Int), (1 : ℚ)), (0, 3)] ∧
    dedupMean [((0 : Int), (1 : ℚ)), (0, 3)] = [(0, ((1 : ℚ) + 3) / 2)] :=
  ⟨(stationSeries_strictMono_dups_averaged "None" [((0 : Int), (1 : ℚ)), (0, 3)] 0 1 3).2.2.1
      0 (by decide),
   (stationSeries_strictMono_dups_averaged "None" [((0 : Int), (1 : ℚ)), (0, 3)] 0 1 3).2.2.2⟩

/-- C3 counterexample: under the configured, non-disabled `"7min"` rule a
point at 2024-01-01T00:00:00Z (epoch 1704067200) is emitted in a bucket
labelled with that same instant — midnight of its own day, the pandas
`origin='start_day'` anchor — which is not a multiple of the 420-second
interval, so the emitted buckets are not epoch-aligned as the claim states
(epoch-aligned flooring would label this bucket 1704066840 instead). -/
theorem resampling_not_epoch_aligned :
    resample_df "7min" [((1704067200 : Int), (10 : ℚ))] =
      [((1704067200 : Int), (10 : ℚ))] ∧
    Int.emod 1704067200 420 ≠ 0 ∧
    Int.fdiv 1704067200 420 * 420 = 1704066840 := by
  refine ⟨?_, by decide, by decide⟩
  norm_num +decide [resample_df, parseRuleMinutes, parseNatList, isDigitChar, digitVal,
    lowerStr, lowerChar, resampleBuckets, groupMeanBy, sortedKeys, bucketStart,
    startDayOrigin, minTime, mean, List.insertionSort, List.orderedInsert]

/-- C3 (amended): with a configured, non-disabled minute rule the series is
replaced by fixed-width buckets anchored at midnight of the first day of the
station's data (pandas `origin='start_day'`), not at the epoch — every
emitted point is the start of a non-empty bucket and carries the mean of
exactly the rows in that bucket, every row lands in some emitted bucket,
bucket starts are offset from the day anchor by multiples of the interval,
and they are epoch-aligned exactly when the interval divides a day, which
includes the script's 15-minute rule; a disabled rule (`"None"`) passes the
series through unchanged; and the points 00:00, 00:05, 00:10 under a
15-minute rule collapse to one point at 00:00 carrying the mean of all three
values. -/
theorem resampling_semantics (rule : String) (m : Nat) (df : List (Int × ℚ))
    (hdis : ¬ (rule = "" ∨ lowerStr rule = "none"))
    (hm : parseRuleMinutes rule = some m) :
    resample_df rule df = resampleBuckets (60 * m) df ∧
    (∀ p ∈ resampleBuckets (60 * m) df,
      ((60 * m : Nat) : Int) ∣ p.1 - startDayOrigin df ∧
      (∃ r ∈ df, bucketStart (startDayOrigin df) (60 * m) r.1 = p.1) ∧
      p.2 = mean ((df.filter
        (fun r => bucketStart (startDayOrigin df) (60 * m) r.1 == p.1)).map (fun r => r.2))) ∧
    (∀ r ∈ df, ∃ p ∈ resampleBuckets (60 * m) df,
      p.1 = bucketStart (startDayOrigin df) (60 * m) r.1) ∧
    ((86400 : Int) ∣ startDayOrigin df) ∧
    (((60 * m : Nat) : Int) ∣ 86400 →
      ∀ p ∈ resampleBuckets (60 * m) df, ((60 * m : Nat) : Int) ∣ p.1) ∧
    (∀ d2 : List (Int × ℚ), resample_df "None" d2 = d2) ∧
    resampleBuckets 900 [(0, (10 : ℚ)), (300, 20), (600, 60)] = [(0, 30)] := by
  have horig : (86400 : Int) ∣ startDayOrigin df := ⟨Int.fdiv (minTime df) 86400, rfl⟩
  have hmem : ∀ p ∈ resampleBuckets (60 * m) df,
      ((60 * m : Nat) : Int) ∣ p.1 - startDayOrigin df ∧
      (∃ r ∈ df, bucketStart (startDayOrigin df) (60 * m) r.1 = p.1) ∧
      p.2 = mean ((df.filter
        (fun r => bucketStart (startDayOrigin df) (60 * m) r.1 == p.1)).map (fun r => r.2)) := by
    intro p hp
    rw [resampleBuckets, groupMeanBy, List.mem_map] at hp
    obtain ⟨u, hu, hpu⟩ := hp
    obtain ⟨r, hr, hru⟩ := mem_sortedKeys.mp hu
    subst hpu
    refine ⟨?_, ⟨r, hr, hru⟩, rfl⟩
    rw [← hru, bucketStart, add_sub_cancel_left]
    exact dvd_mul_left _ _
  refine ⟨?_, hmem, ?_, horig, ?_, ?_, ?_⟩
  · rw [resample_df, if_neg hdis, hm]
  · intro r hr
    have hk : bucketStart (startDayOrigin df) (60 * m) r.1 ∈
        sortedKeys (bucketStart (startDayOrigin df) (60 * m)) df :=
      mem_sortedKeys.mpr ⟨r, hr, rfl⟩
    exact ⟨_, List.mem_map_of_mem _ hk, rfl⟩
  · intro hday p hp
    have h1 := (hmem p hp).1
    have h2 : ((60 * m : Nat) : Int) ∣ startDayOrigin df := hday.trans horig
    have h3 := dvd_add h1 h2
    rwa [sub_add_cancel] at h3
  · intro d2
    rw [resample_df, if_pos (by right; decide)]
  · norm_num +decide [resampleBuckets, groupMeanBy, sortedKeys, bucketStart,
      startDayOrigin, minTime, mean, List.insertionSort, List.orderedInsert]

/-- C3 witness: the `"15min"` rule is parsed as 15 minutes and applied as
900-second bucketing, and 00:00/00:05/00:10 collapse to one bucket at 00:00
carrying the mean of all three values. -/
theorem resampling_semantics_witness :
    resample_df "15min" [((0 : Int), (10 : ℚ))] = resampleBuckets 900 [((0 : Int), (10 : ℚ))] ∧
    resampleBuckets 900 [(0, (10 : ℚ)), (300, 20), (600, 60)] = [(0, 30)] := by
  have h := resampling_semantics "15min" 15 [((0 : Int), (10 : ℚ))] (by decide) (by decide)
  exact ⟨h.1, h.2.2.2.2.2.2⟩

/-- C4 counterexample: with the rule string `"None"` resampling is disabled
(the series passes through unchanged), yet the emitted note is the
resampled-mode string, not the raw-cadence string the claim requires. -/
theorem note_counterexample_rule_none :
    resample_df "None" [((0 : Int), (1 : ℚ))] = [((0 : Int), (1 : ℚ))] ∧
    noteOf "None" = "Resampled for display" ∧
    noteOf "None" ≠ "Raw cadence" := by
  refine ⟨?_, by decide, by decide⟩
  rw [resample_df, if_pos (by right; decide)]

/-- C4 (amended): `meta.note` reflects only Python truthiness of the rule
string — it is the resampled-mode string exactly when the rule string is
non-empty and the raw-cadence string exactly when it is empty — even though a
disabled-but-non-empty rule (such as `"None"`) passes the series through
unchanged. -/
theorem note_matches_rule_truthiness (rule : String) (df : List (Int × ℚ)) :
    (noteOf rule = "Resampled for display" ↔ rule ≠ "") ∧
    (noteOf rule = "Raw cadence" ↔ rule = "") ∧
    ((rule = "" ∨ lowerStr rule = "none") → resample_df rule df = df) := by
  refine ⟨?_, ?_, ?_⟩
  · rw [noteOf]
    split
    · simp_all
    · simp_all
  · rw [noteOf]
    split
    · simp_all
    · simp_all
  · intro h
    rw [resample_df, if_pos h]

/-- C4 witness: at the disabled rule `"None"` the note is the resampled-mode
string while the series is untouched. -/
theorem note_matches_rule_truthiness_witness :
    noteOf "None" = "Resampled for display" ∧
    resample_df "None" [((0 : Int), (2 : ℚ))] = [((0 : Int), (2 : ℚ))] :=
  ⟨(note_matches_rule_truthiness "None" [((0 : Int), (2 : ℚ))]).1.mpr (by decide),
   (note_matches_rule_truthiness "None" [((0 : Int), (2 : ℚ))]).2.2 (by right; decide)⟩

/-- C5: `count_series` is the length of the emitted series list, every
emitted series has at least one point, and a file whose load raises or yields
zero valid rows contributes no station entry to the run's output. -/
theorem count_series_counts_nonempty (cfg : Config) (files pre post : List FileEntry)
    (f : FileEntry) (h : ∀ df, loadResult cfg f = .ok df → df = []) :
    (buildPayload cfg files).meta.count_series = (buildPayload cfg files).series.length ∧
    (∀ s ∈ (buildPayload cfg files).series, s.x ≠ []) ∧
    buildPayload cfg (pre ++ f :: post) = buildPayload cfg (pre ++ post) := by
  refine ⟨rfl, ?_, ?_⟩
  · intro s hs
    rw [buildPayload] at hs
    obtain ⟨p, hp, hps⟩ := List.mem_map.mp hs
    obtain ⟨h1, h2⟩ := collectRecords_dfs_nonempty cfg files p hp
    exact hps ▸ mkSeries_x_ne_nil cfg p.1 p.2 h1 h2
  · rw [buildPayload, buildPayload, collectRecords_skip cfg pre post f h]

/-- C5 witness: in a run with one good file, `count_series` equals the
series-list length, and a file whose read raised contributes nothing. -/
theorem count_series_counts_nonempty_witness :
    (buildPayload ⟨"psi", "UTC", "None"⟩
        [⟨"a.dat", "st", .ok ["t,v", "2024-01-01T00:00:00Z,1.0"]⟩]).meta.count_series =
      (buildPayload ⟨"psi", "UTC", "None"⟩
        [⟨"a.dat", "st", .ok ["t,v", "2024-01-01T00:00:00Z,1.0"]⟩]).series.length ∧
    buildPayload ⟨"psi", "UTC", "None"⟩ [⟨"b.dat", "s2", .error "boom"⟩] =
      buildPayload ⟨"psi", "UTC", "None"⟩ [] := by
  have h := count_series_counts_nonempty ⟨"psi", "UTC", "None"⟩
    [⟨"a.dat", "st", .ok ["t,v", "2024-01-01T00:00:00Z,1.0"]⟩] [] []
    ⟨"b.dat", "s2", .error "boom"⟩ (fun df hdf => by simp [loadResult, Except.map] at hdf)
  exact ⟨h.1, h.2.2⟩

/-- C6: when a header label (lowercased and stripped) matches a time synonym
(respectively a value synonym), the selected time (value) column is the first
column bearing the earliest matching key of the priority list, regardless of
its position. -/
theorem header_synonyms_select_columns (cols : List String) (tk vk : String)
    (ht : time_keys.find? (fun q => (lowerStrip cols).contains q) = some tk)
    (hv : val_keys.find? (fun q => (lowerStrip cols).contains q) = some vk) :
    (find_cols cols).1 = (lowerStrip cols).indexOf tk ∧
    (find_cols cols).2 = (lowerStrip cols).indexOf vk ∧
    (lowerStrip cols)[(find_cols cols).1]? = some tk ∧
    (lowerStrip cols)[(find_cols cols).2]? = some vk := by
  have htm : tk ∈ lowerStrip cols := by
    have := List.find?_some ht
    simpa using this
  have hvm : vk ∈ lowerStrip cols := by
    have := List.find?_some hv
    simpa using this
  have h1 : (find_cols cols).1 = (lowerStrip cols).indexOf tk := by
    simp only [find_cols, findKey_eq_indexOf _ _ _ ht, Option.getD_some]
  have h2 : (find_cols cols).2 = (lowerStrip cols).indexOf vk := by
    simp only [find_cols, findKey_eq_indexOf _ _ _ hv]
  refine ⟨h1, h2, ?_, ?_⟩
  · rw [h1]
    exact getElem?_indexOf_of_mem htm
  · rw [h2]
    exact getElem?_indexOf_of_mem hvm

/-- C6 witness: with header `value,time` the time column is column 1 and the
value column is column 0, regardless of position. -/
theorem header_synonyms_select_columns_witness :
    (find_cols ["value", "time"]).1 = (lowerStrip ["value", "time"]).indexOf "time" ∧
    (find_cols ["value", "time"]).2 = (lowerStrip ["value", "time"]).indexOf "value" ∧
    (lowerStrip ["value", "time"])[(find_cols ["value", "time"]).1]? = some "time" :=
  have h := header_synonyms_select_columns ["value", "time"] "time" "value"
    (by decide) (by decide)
  ⟨h.1, h.2.1, h.2.2.1⟩

/-- C7: when no header label matches any time or value synonym, column 0 is
the time column and column 1 the value column (column 0 when only one column
exists); the collision-forcing branch then also yields the second column. -/
theorem default_columns_without_synonyms (cols : List String)
    (ht : ∀ k ∈ time_keys, k ∉ lowerStrip cols)
    (hv : ∀ k ∈ val_keys, k ∉ lowerStrip cols) :
    find_cols cols = (0, if 1 < cols.length then 1 else 0) := by
  simp only [find_cols, findKey_eq_none _ _ ht, findKey_eq_none _ _ hv, Option.getD_none]
  by_cases hl : 1 < cols.length
  · simp [hl]
  · simp [hl]

/-- C7 witness: with unrecognized header `a,b` the defaults are columns 0 and
1; with a single unrecognized column both roles fall on column 0. -/
theorem default_columns_without_synonyms_witness :
    find_cols ["a", "b"] = (0, 1) ∧ find_cols ["a"] = (0, 0) := by
  have h2 := default_columns_without_synonyms ["a", "b"] (by decide) (by decide)
  have h1 := default_columns_without_synonyms ["a"] (by decide) (by decide)
  exact ⟨by simpa using h2, by simpa using h1⟩

/-- C8: a file whose read raises is skipped — a warning naming its path and
the cause is emitted in sequence, it contributes no rows to the records, and
the payload of the run equals the payload computed from the remaining files
(the run completes). -/
theorem parse_failure_skipped_run_continues (cfg : Config) (pre post : List FileEntry)
    (f : FileEntry) (e : String) (h : f.content = .error e) :
    warnings (pre ++ f :: post) = warnings pre ++ warnMsg f.path e :: warnings post ∧
    collectRecords cfg (pre ++ f :: post) = collectRecords cfg (pre ++ post) ∧
    buildPayload cfg (pre ++ f :: post) = buildPayload cfg (pre ++ post) := by
  have hload : loadResult cfg f = .error e := by
    rw [loadResult, h]
    rfl
  have hskip : ∀ df, loadResult cfg f = .ok df → df = [] := by
    intro df hdf
    rw [hload] at hdf
    exact absurd hdf (by simp)
  refine ⟨?_, collectRecords_skip cfg pre post f hskip, ?_⟩
  · simp only [warnings, List.filterMap_append, List.filterMap_cons, h]
  · rw [buildPayload, buildPayload, collectRecords_skip cfg pre post f hskip]

/-- C8 witness: a run over one unreadable file emits the warning with path
and cause and produces the empty-run payload. -/
theorem parse_failure_skipped_run_continues_witness :
    warnings [⟨"data/raw/x.dat", "x", .error "bad encoding"⟩] =
      [warnMsg "data/raw/x.dat" "bad encoding"] ∧
    buildPayload ⟨"psi", "UTC", "15min"⟩ [⟨"data/raw/x.dat", "x", .error "bad encoding"⟩] =
      buildPayload ⟨"psi", "UTC", "15min"⟩ [] := by
  have h := parse_failure_skipped_run_continues ⟨"psi", "UTC", "15min"⟩ [] []
    ⟨"data/raw/x.dat", "x", .error "bad encoding"⟩ "bad encoding" rfl
  exact ⟨by simpa using h.1, h.2.2⟩

set_option maxHeartbeats 4000000 in
/-- C1: the five-line scenario file (comment, `time,pressure` header, two
rows at 00:00 with values 10 and 20, one row at 00:15 with value 30), run
with unit `psi` and resampling disabled, emits for its station exactly
`x = ["2024-01-01T00:00:00Z", "2024-01-01T00:15:00Z"]` and
`y = [round4 (15 * PSI_TO_KPA), round4 (30 * PSI_TO_KPA)]` — duplicates
averaged, values converted to kPa, then rounded to four decimals. -/
theorem scenario_psi_no_resample :
    (buildPayload ⟨"psi", "UTC", "None"⟩
      [⟨"data/raw/st/a.dat", "st", .ok
        ["# comment", "time,pressure", "2024-01-01T00:00:00Z,10.0",
         "2024-01-01T00:00:00Z,20.0", "2024-01-01T00:15:00Z,30.0"]⟩]).series =
    [⟨"st", ["2024-01-01T00:00:00Z", "2024-01-01T00:15:00Z"],
      [round4 (15 * PSI_TO_KPA), round4 (30 * PSI_TO_KPA)], "kPa"⟩] := by
  norm_num +decide [buildPayload, collectRecords, loadResult, Except.map, load_dat, readCsv,
    droppedLine, splitChar, splitCharAux, find_cols, lowerStrip, lowerStr, stripStr,
    lowerChar, isSpaceChar, findKey, time_keys, val_keys, parseTime, parseTimeList,
    timeFieldsToEpoch, isDigitChar, digitVal, daysFromCivil, parseDecimal, parseNatList,
    sortByTime, mkSeries, dedupMean, groupMeanBy, sortedKeys, resample_df, mean,
    List.insertionSort, List.orderedInsert, lookupDfs, removeStation, formatTime,
    civilFromDays, padZeros, round4, roundHalfEven, ratFloor, PSI_TO_KPA]

set_option maxHeartbeats 1600000 in
/-- C9: the script never consults the configured timezone label — a
timestamp without an explicit offset is parsed as UTC even when `LOCAL_TZ`
is `America/Los_Angeles`, where zone-honouring parsing (modelled from the
spec) would shift it by eight hours. -/
theorem local_tz_ignored_by_parsing :
    load_dat ⟨"psi", "America/Los_Angeles", "None"⟩ ["h,v", "2024-01-01T00:00:00,10.0"] =
      [(1704067200, 10 * PSI_TO_KPA)] ∧
    parseTime "2024-01-01T00:00:00" = some 1704067200 ∧
    parseTimeInZone "America/Los_Angeles" "2024-01-01T00:00:00" = some 1704096000 ∧
    (1704096000 : Int) ≠ 1704067200 := by
  refine ⟨?_, by decide, ?_, by decide⟩
  · norm_num +decide [load_dat, readCsv, droppedLine, splitChar, splitCharAux, find_cols,
      lowerStrip, lowerStr, stripStr, lowerChar, isSpaceChar, findKey, time_keys, val_keys,
      parseTime, parseTimeList, timeFieldsToEpoch, isDigitChar, digitVal, daysFromCivil,
      parseDecimal, parseNatList, sortByTime, List.insertionSort, List.orderedInsert,
      PSI_TO_KPA]
  · decide

set_option maxHeartbeats 1600000 in
/-- C10: the csv reader takes the first surviving line as the header even
when the file has none, so a headerless file's first data point is lost — in
general the parsed rows come only from the later lines, and concretely a
two-row headerless file yields only the second row's point. -/
theorem headerless_first_row_becomes_header (first : String) (rest : List String)
    (h1 : droppedLine first = false) :
    (readCsv (first :: rest)).columns = splitChar ',' first ∧
    (readCsv (first :: rest)).rows =
      (rest.filter (fun l => ¬ droppedLine l)).map (splitChar ',') ∧
    load_dat ⟨"psi", "UTC", "None"⟩
        ["2024-01-01T00:00:00Z,10.0", "2024-01-01T00:15:00Z,30.0"] =
      [(1704068100, 30 * PSI_TO_KPA)] := by
  refine ⟨?_, ?_, ?_⟩
  · simp [readCsv, List.filter_cons, h1]
  · simp [readCsv, List.filter_cons, h1]
  · norm_num +decide [load_dat, readCsv, droppedLine, splitChar, splitCharAux, find_cols,
      lowerStrip, lowerStr, stripStr, lowerChar, isSpaceChar, findKey, time_keys, val_keys,
      parseTime, parseTimeList, timeFieldsToEpoch, isDigitChar, digitVal, daysFromCivil,
      parseDecimal, parseNatList, sortByTime, List.insertionSort, List.orderedInsert,
      PSI_TO_KPA]

/-- C10 witness: the general header-consumption equations instantiated at
the headerless two-row file, whose first line becomes the header labels. -/
theorem headerless_first_row_becomes_header_witness :
    (readCsv ["2024-01-01T00:00:00Z,10.0", "2024-01-01T00:15:00Z,30.0"]).columns =
      splitChar ',' "2024-01-01T00:00:00Z,10.0" ∧
    load_dat ⟨"psi", "UTC", "None"⟩
        ["2024-01-01T00:00:00Z,10.0", "2024-01-01T00:15:00Z,30.0"] =
      [(1704068100, 30 * PSI_TO_KPA)] :=
  have h := headerless_first_row_becomes_header "2024-01-01T00:00:00Z,10.0"
    ["2024-01-01T00:15:00Z,30.0"] (by decide)
  ⟨h.1, h.2.2⟩

end Axial
